import Mathlib

/-!
Shallow embedding of the denomination-resolution pipeline of
`staketown/oracle-monitoring` (`src/main.go`, functions
`checkAndHandleDenomInfoProvidedByUser` and `setDenom`).

Modelling conventions:
* The Go globals `Denom : string`, `DenomCoefficient : float64` and
  `DenomExponent : uint64` are passed as explicit arguments.
* `float64` values are idealized as exact rationals (`ℚ`); `math.Pow10`
  is idealized as the exact power `10 ^ n`.  All literals appearing in
  the resolver (`1`, `0`, `10^n` for moderate `n`) are exactly
  representable as `float64`, so comparisons in the resolver agree with
  the idealization on the inputs of interest.
* `log.Fatal` terminates the process; it is modelled as a `fatal`
  outcome carrying the source's message, after which nothing else runs.
* The gRPC `DenomsMetadata` query is modelled as an explicit input
  (`NodeResponse`): either a transport error or a list of metadata
  entries.  `setDenom` additionally returns a `Bool` recording whether
  the node query was issued, so "performs no node query" is observable.
-/

/-- One denomination unit of a metadata entry: Go `banktypes.DenomUnit`
with fields `Denom : string` and `Exponent : uint32` (modelled as `Nat`). -/
structure DenomUnit where
  denom : String
  exponent : Nat
deriving DecidableEq, Repr

/-- One registry entry: Go `banktypes.Metadata`, restricted to the fields
`setDenom` reads (`Display` and `DenomUnits`). -/
structure Metadata where
  display : String
  denomUnits : List DenomUnit
deriving DecidableEq, Repr

/-- Go `math.Pow10`, idealized as the exact rational power of ten. -/
def pow10 (n : Nat) : ℚ := 10 ^ n

/-- Outcome of `checkAndHandleDenomInfoProvidedByUser`: the Go function
either calls `log.Fatal` (both scaling values provided), returns `true`
having fixed the denom and coefficient, or returns `false`. -/
inductive CheckResult where
  | fatalBothProvided : CheckResult
  | handled : String → ℚ → CheckResult
  | notHandled : CheckResult
deriving DecidableEq, Repr

/-- Go `checkAndHandleDenomInfoProvidedByUser` (src/main.go:214-244),
with the globals `Denom`, `DenomCoefficient`, `DenomExponent` as arguments. -/
def checkAndHandleDenomInfoProvidedByUser (denom : String)
    (denomCoefficient : ℚ) (denomExponent : Nat) : CheckResult :=
  if denom ≠ "" then
    if denomCoefficient ≠ 1 ∧ denomExponent ≠ 0 then
      CheckResult.fatalBothProvided
    else if denomCoefficient ≠ 1 then
      CheckResult.handled denom denomCoefficient
    else if denomExponent ≠ 0 then
      CheckResult.handled denom (pow10 denomExponent)
    else
      CheckResult.notHandled
  else
    CheckResult.notHandled

/-- The resolved denomination configuration: the values of the globals
`Denom` and `DenomCoefficient` after `setDenom` returns normally. -/
structure Resolved where
  denom : String
  coefficient : ℚ
deriving DecidableEq, Repr

/-- Outcome of `setDenom`: normal return with the resolved configuration,
or process exit via `log.Fatal` with the source's message. -/
inductive ResolveOutcome where
  | ok : Resolved → ResolveOutcome
  | fatal : String → ResolveOutcome
deriving DecidableEq, Repr

/-- The node's answer to the `DenomsMetadata` query: a transport-level
error, or the list `denoms.Metadatas`. -/
inductive NodeResponse where
  | queryError : NodeResponse
  | metadatas : List Metadata → NodeResponse
deriving DecidableEq, Repr

/-- The `for _, unit := range metadata.DenomUnits` loop of `setDenom`
(src/main.go:196-211): first unit whose `Denom` equals the resolved
symbol wins; falling off the end is `log.Fatal`. -/
def scanUnits (sym : String) : List DenomUnit → ResolveOutcome
  | [] => ResolveOutcome.fatal "Could not find the denom info"
  | u :: rest =>
      if u.denom = sym then ResolveOutcome.ok ⟨sym, pow10 u.exponent⟩
      else scanUnits sym rest

/-- Go `setDenom` (src/main.go:171-212).  Returns the outcome together
with a flag telling whether the `DenomsMetadata` node query was issued. -/
def setDenom (denom : String) (denomCoefficient : ℚ) (denomExponent : Nat)
    (node : NodeResponse) : ResolveOutcome × Bool :=
  match checkAndHandleDenomInfoProvidedByUser denom denomCoefficient denomExponent with
  | CheckResult.fatalBothProvided =>
      (ResolveOutcome.fatal
        "denom-coefficient and denom-exponent are both provided. Must provide only one",
       false)
  | CheckResult.handled d c => (ResolveOutcome.ok ⟨d, c⟩, false)
  | CheckResult.notHandled =>
      match node with
      | NodeResponse.queryError => (ResolveOutcome.fatal "Error querying denom", true)
      | NodeResponse.metadatas ms =>
          match ms with
          | [] =>
              (ResolveOutcome.fatal
                "No denom infos. Try running the binary with --denom and --denom-coefficient to set them manually.",
               true)
          | metadata :: _ =>
              (scanUnits (if denom = "" then metadata.display else denom)
                metadata.denomUnits, true)

/-! ### Helper lemmas -/

/-- `pow10` is strictly positive. -/
lemma pow10_pos (n : Nat) : 0 < pow10 n := by
  unfold pow10
  positivity

/-- `pow10 e ≠ 1` whenever `e ≠ 0`. -/
lemma pow10_ne_one {e : Nat} (he : e ≠ 0) : pow10 e ≠ 1 := by
  unfold pow10
  exact ne_of_gt (one_lt_pow₀ (by norm_num) he)

/-- A successful scan resolves exactly the scanned symbol. -/
lemma scanUnits_ok_denom (sym : String) (us : List DenomUnit) (cfg : Resolved)
    (h : scanUnits sym us = ResolveOutcome.ok cfg) : cfg.denom = sym := by
  induction us with
  | nil => simp [scanUnits] at h
  | cons u rest ih =>
      by_cases hu : u.denom = sym
      · simp [scanUnits, hu] at h
        simp [← h]
      · simp [scanUnits, hu] at h
        exact ih h

/-- A successful scan yields a coefficient that is a power of ten. -/
lemma scanUnits_ok_coefficient (sym : String) (us : List DenomUnit) (cfg : Resolved)
    (h : scanUnits sym us = ResolveOutcome.ok cfg) : ∃ n, cfg.coefficient = pow10 n := by
  induction us with
  | nil => simp [scanUnits] at h
  | cons u rest ih =>
      by_cases hu : u.denom = sym
      · simp [scanUnits, hu] at h
        exact ⟨u.exponent, by simp [← h]⟩
      · simp [scanUnits, hu] at h
        exact ih h

/-- Units that do not match the symbol are skipped by the scan. -/
lemma scanUnits_append_skip (sym : String) (pre rest : List DenomUnit)
    (h : ∀ v ∈ pre, v.denom ≠ sym) :
    scanUnits sym (pre ++ rest) = scanUnits sym rest := by
  induction pre with
  | nil => simp
  | cons v vs ih =>
      have hv : v.denom ≠ sym := h v (by simp)
      simp only [List.cons_append, scanUnits, if_neg hv]
      exact ih fun w hw => h w (by simp [hw])

/-- A coefficient handed out by the override check is either the
operator-supplied coefficient or a power of ten. -/
lemma check_handled_coefficient (s d : String) (c co : ℚ) (e : Nat)
    (h : checkAndHandleDenomInfoProvidedByUser s c e = CheckResult.handled d co) :
    co = c ∨ ∃ n, n ≠ 0 ∧ co = pow10 n := by
  unfold checkAndHandleDenomInfoProvidedByUser at h
  split_ifs at h with h1 h2 h3 h4 <;> cases h
  · exact Or.inl rfl
  · exact Or.inr ⟨e, h4, rfl⟩

/-! ### Claims -/

/-- Claim C1: for every valid override pair of a non-empty symbol and an
explicitly supplied coefficient (exponent left at its default `0`),
`setDenom` returns exactly that symbol and coefficient unchanged and
issues no node denomination-metadata query, whatever the node would
have answered. -/
theorem c1_override_coefficient (s : String) (c : ℚ) (node : NodeResponse)
    (hs : s ≠ "") (hc : c ≠ 1) :
    setDenom s c 0 node = (ResolveOutcome.ok ⟨s, c⟩, false) := by
  simp [setDenom, checkAndHandleDenomInfoProvidedByUser, hs, hc]

theorem c1_override_coefficient_witness :
    setDenom "umee" 1000000 0 (NodeResponse.metadatas []) =
      (ResolveOutcome.ok ⟨"umee", 1000000⟩, false) :=
  c1_override_coefficient "umee" 1000000 (NodeResponse.metadatas [])
    (by decide) (by norm_num)

/-- Claim C2, counterexample: the operator-supplied coefficient `-5` is
passed through unchanged, so `setDenom` completes without failing yet
the returned coefficient is not greater than zero. -/
theorem c2_positive_coefficient_cex :
    (setDenom "umee" (-5) 0
        (NodeResponse.metadatas [⟨"uumee", [⟨"uumee", 0⟩, ⟨"umee", 6⟩]⟩])).1 =
      ResolveOutcome.ok ⟨"umee", -5⟩ ∧ ¬ (0 < (-5 : ℚ)) := by
  refine ⟨by decide, by norm_num⟩

/-- Claim C2, amended: whenever `setDenom` completes without failing,
the returned coefficient is either the operator-supplied coefficient
passed through unchanged (which the code never checks for positivity)
or a power of ten, hence strictly positive. -/
theorem c2_resolved_coefficient (s : String) (c : ℚ) (e : Nat)
    (node : NodeResponse) (cfg : Resolved)
    (h : (setDenom s c e node).1 = ResolveOutcome.ok cfg) :
    cfg.coefficient = c ∨ 0 < cfg.coefficient := by
  unfold setDenom at h
  rcases hk : checkAndHandleDenomInfoProvidedByUser s c e with _ | ⟨d, co⟩ | _ <;>
    rw [hk] at h
  · cases h
  · replace h : ResolveOutcome.ok ⟨d, co⟩ = ResolveOutcome.ok cfg := h
    injection h with h2
    subst h2
    rcases check_handled_coefficient s d c co e hk with hco | ⟨n, -, hco⟩
    · exact Or.inl hco
    · exact Or.inr (hco ▸ pow10_pos n)
  · cases node with
    | queryError => cases h
    | metadatas ms =>
        cases ms with
        | nil => cases h
        | cons m rest =>
            replace h :
                scanUnits (if s = "" then m.display else s) m.denomUnits =
                  ResolveOutcome.ok cfg := h
            rcases scanUnits_ok_coefficient _ _ _ h with ⟨n, hn⟩
            exact Or.inr (hn ▸ pow10_pos n)

theorem c2_resolved_coefficient_witness :
    (⟨"umee", 5⟩ : Resolved).coefficient = 5 ∨
      0 < (⟨"umee", 5⟩ : Resolved).coefficient :=
  c2_resolved_coefficient "umee" 5 0 (NodeResponse.metadatas []) ⟨"umee", 5⟩
    (by decide)

/-- Claim C3: a non-empty symbol together with a non-default coefficient
and a non-default exponent makes `setDenom` fail with the
both-provided configuration error, before any node query is issued. -/
theorem c3_both_provided_fails (s : String) (c : ℚ) (e : Nat) (node : NodeResponse)
    (hs : s ≠ "") (hc : c ≠ 1) (he : e ≠ 0) :
    setDenom s c e node =
      (ResolveOutcome.fatal
        "denom-coefficient and denom-exponent are both provided. Must provide only one",
       false) := by
  simp [setDenom, checkAndHandleDenomInfoProvidedByUser, hs, hc, he]

theorem c3_both_provided_fails_witness :
    setDenom "umee" 1000000 6 (NodeResponse.metadatas []) =
      (ResolveOutcome.fatal
        "denom-coefficient and denom-exponent are both provided. Must provide only one",
       false) :=
  c3_both_provided_fails "umee" 1000000 6 (NodeResponse.metadatas [])
    (by decide) (by norm_num) (by decide)

/-- Claim C4: for every valid override pair of a non-empty symbol and an
explicitly supplied exponent (coefficient left at its default `1`),
`setDenom` returns coefficient `10 ^ exponent` exactly and performs no
node query. -/
theorem c4_override_exponent (s : String) (e : Nat) (node : NodeResponse)
    (hs : s ≠ "") (he : e ≠ 0) :
    setDenom s 1 e node = (ResolveOutcome.ok ⟨s, pow10 e⟩, false) := by
  simp [setDenom, checkAndHandleDenomInfoProvidedByUser, hs, he]

theorem c4_override_exponent_witness :
    setDenom "umee" 1 6 (NodeResponse.metadatas []) =
      (ResolveOutcome.ok ⟨"umee", pow10 6⟩, false) ∧ pow10 6 = 1000000 :=
  ⟨c4_override_exponent "umee" 6 (NodeResponse.metadatas []) (by decide) (by decide),
   by norm_num [pow10]⟩

/-- Claim C5: whenever override handling falls through and the registry
is non-empty, `setDenom` works exclusively with the entry at index 0
(the tail of the registry never influences the result, for every
length), scanning it for `symbol` when the operator gave one and for
the entry's display unit name otherwise; and every successful scan of
the display name resolves exactly that display name as the symbol. -/
theorem c5_first_entry_selected (s : String) (c : ℚ) (e : Nat)
    (m : Metadata) (ms : List Metadata)
    (h : checkAndHandleDenomInfoProvidedByUser s c e = CheckResult.notHandled) :
    setDenom s c e (NodeResponse.metadatas (m :: ms)) =
      (scanUnits (if s = "" then m.display else s) m.denomUnits, true) ∧
    ∀ cfg, scanUnits m.display m.denomUnits = ResolveOutcome.ok cfg →
      cfg.denom = m.display := by
  constructor
  · simp [setDenom, h]
  · exact fun cfg hc => scanUnits_ok_denom m.display m.denomUnits cfg hc

theorem c5_first_entry_selected_witness :
    (setDenom "" 1 0 (NodeResponse.metadatas
        [⟨"uumee", [⟨"uumee", 0⟩, ⟨"umee", 6⟩]⟩]) =
      (scanUnits (if "" = "" then "uumee" else "") [⟨"uumee", 0⟩, ⟨"umee", 6⟩],
       true)) ∧
    ∀ cfg, scanUnits "uumee" [⟨"uumee", 0⟩, ⟨"umee", 6⟩] = ResolveOutcome.ok cfg →
      cfg.denom = "uumee" :=
  c5_first_entry_selected "" 1 0 ⟨"uumee", [⟨"uumee", 0⟩, ⟨"umee", 6⟩]⟩ []
    (by decide)

/-- Claim C6: a non-empty operator-supplied symbol that occurs in no
denomination unit of the selected (first) registry entry makes
`setDenom` fail with the not-found error; the metadata query is the
only query issued. -/
theorem c6_symbol_not_found (s : String) (m : Metadata) (ms : List Metadata)
    (hs : s ≠ "") (hnot : ∀ u ∈ m.denomUnits, u.denom ≠ s) :
    setDenom s 1 0 (NodeResponse.metadatas (m :: ms)) =
      (ResolveOutcome.fatal "Could not find the denom info", true) := by
  have hscan : scanUnits s m.denomUnits =
      ResolveOutcome.fatal "Could not find the denom info" := by
    have h0 := scanUnits_append_skip s m.denomUnits [] hnot
    simpa [scanUnits] using h0
  simp [setDenom, checkAndHandleDenomInfoProvidedByUser, hs, hscan]

theorem c6_symbol_not_found_witness :
    setDenom "umee" 1 0 (NodeResponse.metadatas [⟨"uumee", [⟨"uumee", 0⟩]⟩]) =
      (ResolveOutcome.fatal "Could not find the denom info", true) :=
  c6_symbol_not_found "umee" ⟨"uumee", [⟨"uumee", 0⟩]⟩ []
    (by decide) (by decide)

/-- Claim C7, counterexample: with an empty registry but an override
pair supplied, `setDenom` completes and returns a configuration (the
registry is never consulted), so an empty registry does not always
produce a failure. -/
theorem c7_empty_registry_cex :
    setDenom "umee" 1000000 0 (NodeResponse.metadatas []) =
      (ResolveOutcome.ok ⟨"umee", 1000000⟩, false) := by
  decide

/-- Claim C7, amended: for every input that falls through override
handling to node-query resolution, an empty registry (zero entries)
makes `setDenom` fail with the no-denom-infos configuration error. -/
theorem c7_empty_registry_fails (s : String) (c : ℚ) (e : Nat)
    (h : checkAndHandleDenomInfoProvidedByUser s c e = CheckResult.notHandled) :
    (setDenom s c e (NodeResponse.metadatas [])).1 =
      ResolveOutcome.fatal
        "No denom infos. Try running the binary with --denom and --denom-coefficient to set them manually." := by
  simp [setDenom, h]

theorem c7_empty_registry_fails_witness :
    (setDenom "" 1 0 (NodeResponse.metadatas [])).1 =
      ResolveOutcome.fatal
        "No denom infos. Try running the binary with --denom and --denom-coefficient to set them manually." :=
  c7_empty_registry_fails "" 1 0 (by decide)

/-- Claim C8: with an empty symbol the override check never fires —
whatever coefficient and exponent were supplied, it raises no error and
returns no value — and `setDenom` proceeds to the node query. -/
theorem c8_empty_symbol_skips_overrides (c : ℚ) (e : Nat) (node : NodeResponse) :
    checkAndHandleDenomInfoProvidedByUser "" c e = CheckResult.notHandled ∧
    (setDenom "" c e node).2 = true := by
  refine ⟨by simp [checkAndHandleDenomInfoProvidedByUser], ?_⟩
  cases node with
  | queryError => simp [setDenom, checkAndHandleDenomInfoProvidedByUser]
  | metadatas ms =>
      cases ms <;> simp [setDenom, checkAndHandleDenomInfoProvidedByUser]

/-- Claim C9: the not-provided sentinels are coefficient `1` and
exponent `0`: supplying exactly those values makes the override check
fall through to the node query for every symbol, and no handled
override can ever carry coefficient `1`. -/
theorem c9_sentinel_values (s : String) (c : ℚ) (e : Nat) (node : NodeResponse) :
    checkAndHandleDenomInfoProvidedByUser s 1 0 = CheckResult.notHandled ∧
    (setDenom s 1 0 node).2 = true ∧
    ∀ d co, checkAndHandleDenomInfoProvidedByUser s c e = CheckResult.handled d co →
      co ≠ 1 := by
  have h1 : checkAndHandleDenomInfoProvidedByUser s 1 0 = CheckResult.notHandled := by
    by_cases hs : s = "" <;> simp [checkAndHandleDenomInfoProvidedByUser, hs]
  refine ⟨h1, ?_, ?_⟩
  · cases node with
    | queryError => simp [setDenom, h1]
    | metadatas ms => cases ms <;> simp [setDenom, h1]
  · intro d co hco
    unfold checkAndHandleDenomInfoProvidedByUser at hco
    split_ifs at hco with h2 h3 h4 h5 <;> cases hco
    · exact h4
    · exact pow10_ne_one h5

theorem c9_sentinel_values_witness :
    (checkAndHandleDenomInfoProvidedByUser "umee" 1 0 = CheckResult.notHandled) ∧
      ((5 : ℚ) ≠ 1) :=
  ⟨(c9_sentinel_values "umee" 5 0 NodeResponse.queryError).1,
   (c9_sentinel_values "umee" 5 0 NodeResponse.queryError).2.2 "umee" 5 (by decide)⟩

/-- Claim C10: the selected entry's units are scanned in list order and
the first unit whose name equals the resolved symbol fixes the
coefficient; any later units — a duplicate of the same name with a
different exponent included — are never examined. -/
theorem c10_first_matching_unit (s : String) (ms : List Metadata) (m : Metadata)
    (pre post : List DenomUnit) (u : DenomUnit)
    (hs : s ≠ "") (hu : u.denom = s) (hpre : ∀ v ∈ pre, v.denom ≠ s)
    (hunits : m.denomUnits = pre ++ u :: post) :
    setDenom s 1 0 (NodeResponse.metadatas (m :: ms)) =
      (ResolveOutcome.ok ⟨s, pow10 u.exponent⟩, true) := by
  have hscan : scanUnits s m.denomUnits =
      ResolveOutcome.ok ⟨s, pow10 u.exponent⟩ := by
    rw [hunits, scanUnits_append_skip s pre (u :: post) hpre]
    simp [scanUnits, hu]
  simp [setDenom, checkAndHandleDenomInfoProvidedByUser, hs, hscan]

theorem c10_first_matching_unit_witness :
    setDenom "umee" 1 0 (NodeResponse.metadatas
        [⟨"uumee", [⟨"uumee", 0⟩, ⟨"umee", 6⟩, ⟨"umee", 3⟩]⟩]) =
      (ResolveOutcome.ok ⟨"umee", pow10 6⟩, true) :=
  c10_first_matching_unit "umee" []
    ⟨"uumee", [⟨"uumee", 0⟩, ⟨"umee", 6⟩, ⟨"umee", 3⟩]⟩
    [⟨"uumee", 0⟩] [⟨"umee", 3⟩] ⟨"umee", 6⟩
    (by decide) rfl (by decide) rfl
